import Mathlib

/-!
Verification of the thread-pool synchronization engine in
`src/threadpoolpattern.cpp` (classes `thread_pool` and `worker`).

The embedding has three layers:

* a pure model of the task deque `tasks_` (a `List` of task ids) with the
  operations the source applies to it: `push_back` (line 118) and
  `front`/`pop_front` (lines 92-93);
* a small-step state machine `Step` for one worker thread running
  `worker::operator()` (lines 81-96), interleaved with producer calls to
  `thread_pool::enqueue` (lines 113-120) and the destructor's unsynchronized
  `stop_ = true` write (line 107).  The mutex `queue_mutex_` is modelled by a
  `lockHeld` flag: a step the source performs while holding the lock requires
  and keeps `lockHeld = true`, and a thread can take the lock only when it is
  free.  `cv_.wait(locker)` releases the lock while parked and re-acquires it
  on wake; wake steps are always enabled (covering notifications and spurious
  wakeups alike), which only strengthens any theorem saying a worker stays
  parked;
* action traces for the bodies of `enqueue` and `~thread_pool`, used to state
  lock-discipline and notification properties of those operations.

Where the specification describes an operation the source does not implement
(rejecting submissions after shutdown, validating `thread_count`, the
two-part wait predicate, `signal_shutdown`), a second definition marked
`Modelled from the spec:` captures the spec's words so the two can be
compared.
-/

namespace ThreadPool

/-- Tasks are identified by a natural number id; the queue never inspects the
callable, so an id is a faithful stand-in for `function<void()>`. -/
abbrev Task := Nat

/-! ## The task deque (source: `deque<function<void()>> tasks_`) -/

/-- Source line 118: `tasks_.push_back(...)` appends at the back. -/
def push_back (q : List Task) (t : Task) : List Task := q ++ [t]

/-- Source line 92: `tasks_.front()` reads the front element. -/
def front (q : List Task) : Option Task := q.head?

/-- Source line 93: `tasks_.pop_front()` removes the front element. -/
def pop_front (q : List Task) : List Task := q.tail

/-- A queue operation: a producer enqueue (source line 118) or a worker
dequeue (source lines 92-93). -/
inductive QOp where
  | enq (t : Task)
  | deq
deriving DecidableEq

/-- Run a sequence of queue operations against the deque, starting from
queue `q`.  Returns the final queue and the list of dequeued tasks in the
order they were popped.  A `deq` against an empty queue pops nothing (in the
source the worker only reaches `front`/`pop_front` when the queue is
non-empty; see the `ready`-location invariant below). -/
def runQueue : List QOp → List Task → List Task × List Task
  | [], q => (q, [])
  | QOp.enq t :: ops, q => runQueue ops (push_back q t)
  | QOp.deq :: ops, q =>
    match q with
    | [] => runQueue ops []
    | t :: r =>
      let p := runQueue ops r
      (p.1, t :: p.2)

/-- The tasks submitted by a sequence of operations, in submission order. -/
def enqList : List QOp → List Task
  | [] => []
  | QOp.enq t :: ops => t :: enqList ops
  | QOp.deq :: ops => enqList ops

/-- A concrete operation sequence: submit 1, submit 2, then two pops. -/
def fifoOps : List QOp := [QOp.enq 1, QOp.enq 2, QOp.deq, QOp.deq]

/-! ## Small-step model of `worker::operator()` (source lines 81-96),
`thread_pool::enqueue` (lines 113-120) and `~thread_pool` (lines 105-111) -/

/-- Control location of the worker thread inside `worker::operator()`:

* `start`     - top of the `while (true)` body, about to construct the
  `unique_lock` (line 83);
* `checkStop` - holding the lock, at `if (pool_.stop_) return;` (line 85);
* `waitCheck` - holding the lock, at the `while (pool_.tasks_.empty())`
  loop condition (line 89), either just arrived or just woken;
* `waiting`   - parked inside `cv_.wait(locker)` (line 90), lock released;
* `ready`     - holding the lock, wait loop exited, about to execute
  `front()`/`pop_front()` (lines 92-93);
* `run t`     - lock released (line 94), executing `task()` (line 95);
* `exited`    - returned from `operator()` (line 86);
* `crashed`   - an exception escaped `task()`; the loop has no handler, so
  it propagates out of the thread entry point. -/
inductive WLoc where
  | start
  | checkStop
  | waitCheck
  | waiting
  | ready
  | run (t : Task)
  | exited
  | crashed
deriving DecidableEq

/-- Shared state plus the worker's control location.  `lockHeld` models
`queue_mutex_`: `true` while some thread is inside a critical section. -/
structure SysState where
  tasks : List Task
  stop : Bool
  lockHeld : Bool
  loc : WLoc
deriving DecidableEq

/-- One step of the system.  `fails t` says whether task `t` throws when run.
The index `prod` enables producer (`enqueue`) steps; with `prod = false` no
submissions occur (e.g. after the driver has moved on to destruction).
Wake steps are unconditionally enabled, covering notified and spurious
wakeups alike. -/
inductive Step (fails : Task → Bool) : Bool → SysState → SysState → Prop where
  | acquire (p : Bool) (ts : List Task) (st : Bool) :
      Step fails p ⟨ts, st, false, WLoc.start⟩ ⟨ts, st, true, WLoc.checkStop⟩
  | stopExit (p : Bool) (ts : List Task) :
      Step fails p ⟨ts, true, true, WLoc.checkStop⟩ ⟨ts, true, false, WLoc.exited⟩
  | stopPass (p : Bool) (ts : List Task) :
      Step fails p ⟨ts, false, true, WLoc.checkStop⟩ ⟨ts, false, true, WLoc.waitCheck⟩
  | waitEnter (p : Bool) (st : Bool) :
      Step fails p ⟨[], st, true, WLoc.waitCheck⟩ ⟨[], st, false, WLoc.waiting⟩
  | wake (p : Bool) (ts : List Task) (st : Bool) :
      Step fails p ⟨ts, st, false, WLoc.waiting⟩ ⟨ts, st, true, WLoc.waitCheck⟩
  | waitExit (p : Bool) (t : Task) (ts : List Task) (st : Bool) :
      Step fails p ⟨t :: ts, st, true, WLoc.waitCheck⟩ ⟨t :: ts, st, true, WLoc.ready⟩
  | popTask (p : Bool) (t : Task) (ts : List Task) (st : Bool) :
      Step fails p ⟨t :: ts, st, true, WLoc.ready⟩ ⟨ts, st, false, WLoc.run t⟩
  | runOk (p : Bool) (t : Task) (ts : List Task) (st : Bool) :
      fails t = false →
      Step fails p ⟨ts, st, false, WLoc.run t⟩ ⟨ts, st, false, WLoc.start⟩
  | runThrow (p : Bool) (t : Task) (ts : List Task) (st : Bool) :
      fails t = true →
      Step fails p ⟨ts, st, false, WLoc.run t⟩ ⟨ts, st, false, WLoc.crashed⟩
  | enqueueStep (t : Task) (ts : List Task) (st : Bool) (l : WLoc) :
      Step fails true ⟨ts, st, false, l⟩ ⟨push_back ts t, st, false, l⟩
  | setStop (p : Bool) (ts : List Task) (st lh : Bool) (l : WLoc) :
      Step fails p ⟨ts, st, lh, l⟩ ⟨ts, true, lh, l⟩

/-- Reachability: reflexive-transitive closure of `Step`. -/
def Reach (fails : Task → Bool) (p : Bool) : SysState → SysState → Prop :=
  Relation.ReflTransGen (Step fails p)

/-- A task that never throws, for scenarios where failure is irrelevant. -/
def noFail : Task → Bool := fun _ => false

/-- A task set in which task 3 throws when executed. -/
def failsAt3 : Task → Bool := fun t => t == 3

/-- An empty pool with the worker at the top of its loop: the state right
after `thread_pool(1)` once the single worker begins running. -/
def initState : SysState := ⟨[], false, false, WLoc.start⟩

/-- The state the destructor faces in the hang scenario: queue drained,
worker parked in `cv_.wait`, and `stop_` already set by line 107. -/
def parkedStopped : SysState := ⟨[], true, false, WLoc.waiting⟩

/-- The state after one task was submitted and the destructor set `stop_`
before the worker's first iteration: task 5 queued, stop set, worker at the
top of its loop. -/
def preStopped : SysState := ⟨[5], true, false, WLoc.start⟩

/-- The state after an exception escaped `task()`: worker thread dead. -/
def crashedState : SysState := ⟨[], false, false, WLoc.crashed⟩

/-- In the destructor, `thread.join()` (line 110) returns for a worker
exactly when that worker has left its loop. -/
def join_done (s : SysState) : Prop := s.loc = WLoc.exited

/-! ## Action traces of the pool's operations -/

/-- Atomic actions a pool operation performs on the shared state. -/
inductive Act where
  | lock
  | unlock
  | readStop
  | writeStop
  | readQueue
  | pushBack (t : Task)
  | popFront
  | notifyOne
  | notifyAll
  | joinAll
deriving DecidableEq

/-- The body of `thread_pool::enqueue` (lines 113-120) as an action trace:
construct the `unique_lock` (acquire), `push_back`, `notify_one`, release at
scope exit.  `stop_` is never examined. -/
def enqueue_acts (t : Task) : List Act :=
  [Act.lock, Act.pushBack t, Act.notifyOne, Act.unlock]

/-- The body of `~thread_pool` (lines 105-111): write `stop_` (line 107,
without taking any lock), then join every worker (lines 109-110).  No
notify call of any kind occurs. -/
def dtor_acts : List Act := [Act.writeStop, Act.joinAll]

/-- One non-blocking iteration of the worker loop (lines 83-94): acquire,
read `stop_`, read emptiness, read the front, pop the front, unlock. -/
def worker_iter_acts : List Act :=
  [Act.lock, Act.readStop, Act.readQueue, Act.readQueue, Act.popFront,
   Act.unlock]

/-- Modelled from the spec: `signal_shutdown()` — acquire the lock, set the
stop flag, release the lock, wake all waiters.  The source has no such
operation; its destructor (`dtor_acts`) is the only shutdown path. -/
def signal_shutdown_spec : List Act :=
  [Act.lock, Act.writeStop, Act.unlock, Act.notifyAll]

/-- Check that every access to the queue or to the stop flag in a trace
occurs while the lock is held; the second argument tracks whether the lock
is currently held. -/
def locked_ok : List Act → Bool → Bool
  | [], _ => true
  | Act.lock :: r, _ => locked_ok r true
  | Act.unlock :: r, _ => locked_ok r false
  | Act.readStop :: r, h => h && locked_ok r h
  | Act.writeStop :: r, h => h && locked_ok r h
  | Act.readQueue :: r, h => h && locked_ok r h
  | Act.pushBack _ :: r, h => h && locked_ok r h
  | Act.popFront :: r, h => h && locked_ok r h
  | Act.notifyOne :: r, h => locked_ok r h
  | Act.notifyAll :: r, h => locked_ok r h
  | Act.joinAll :: r, h => locked_ok r h

/-! ## Submission and construction -/

/-- Result of a submission, as the spec's interface describes it. -/
inductive SubmitResult where
  | ok
  | rejectedSubmission
deriving DecidableEq

/-- The shared state `enqueue` can see: the deque and the stop flag. -/
structure SharedState where
  tasks : List Task
  stop : Bool
deriving DecidableEq

/-- `thread_pool::enqueue` (lines 113-120): lock, `push_back`, `notify_one`.
It never examines `stop_` and never fails. -/
def enqueue (sh : SharedState) (t : Task) : SharedState × SubmitResult :=
  ({ sh with tasks := push_back sh.tasks t }, SubmitResult.ok)

/-- Modelled from the spec: submit fails with `RejectedSubmission` once
shutdown has been signaled, and the task is not queued. -/
def submit_spec (sh : SharedState) (t : Task) : SharedState × SubmitResult :=
  if sh.stop then (sh, SubmitResult.rejectedSubmission)
  else ({ sh with tasks := push_back sh.tasks t }, SubmitResult.ok)

/-- A pool value: worker thread ids, the deque, the stop flag. -/
structure Pool where
  workers : List Nat
  tasks : List Task
  stop : Bool
deriving DecidableEq

/-- `thread_pool::thread_pool` (lines 99-103): initialize `stop_(false)`,
then push `threads` worker threads.  The argument is not validated. -/
def thread_pool_mk (threads : Nat) : Pool :=
  { workers := List.range threads, tasks := [], stop := false }

/-- Result of construction, as the spec's interface describes it. -/
inductive CtorResult where
  | pool (p : Pool)
  | invalidConfiguration
deriving DecidableEq

/-- Modelled from the spec: construction fails with `InvalidConfiguration`
when `thread_count < 1`, creating no pool. -/
def construct_spec (threads : Nat) : CtorResult :=
  if threads < 1 then CtorResult.invalidConfiguration
  else CtorResult.pool (thread_pool_mk threads)

/-! ## Wait-loop predicates -/

/-- Source line 89: the guard of the wait loop.  It consults only the queue;
the stop flag does not occur in it. -/
def wait_cond (q : List Task) (stop : Bool) : Bool := q.isEmpty

/-- Modelled from the spec: block while the queue is empty AND the stop flag
is false. -/
def wait_cond_spec (q : List Task) (stop : Bool) : Bool := q.isEmpty && !stop

/-! ## Helper invariants -/

/-- FIFO invariant of the deque discipline: at every point, the popped tasks
followed by the tasks still queued are exactly the initial queue followed by
all submissions, in order. -/
theorem runQueue_fifo (ops : List QOp) (q : List Task) :
    (runQueue ops q).2 ++ (runQueue ops q).1 = q ++ enqList ops := by
  induction ops generalizing q with
  | nil => simp [runQueue, enqList]
  | cons op ops ih =>
    cases op with
    | enq t =>
      simp only [runQueue, enqList]
      rw [ih]
      simp [push_back]
    | deq =>
      cases q with
      | nil =>
        simp only [runQueue, enqList]
        rw [ih]
      | cons t r =>
        simp only [runQueue, enqList]
        rw [List.cons_append, ih]
        simp

/-- Helper invariant: with an empty queue and no producers, a worker parked
in the wait loop stays in `{waiting, waitCheck}` with the queue still empty,
no matter how often it is woken and regardless of `stop_` (the loop on line
89 re-checks only `tasks_.empty()`, never `stop_`). -/
theorem parked_forever {fails : Task → Bool} {s s' : SysState}
    (h : Reach fails false s s')
    (hs : s.tasks = [] ∧ (s.loc = WLoc.waiting ∨ s.loc = WLoc.waitCheck)) :
    s'.tasks = [] ∧ (s'.loc = WLoc.waiting ∨ s'.loc = WLoc.waitCheck) := by
  induction h with
  | refl => exact hs
  | tail _ hstep ih =>
    cases hstep <;> simp_all

/-- Helper invariant: once `stop_` is set while the worker is still before
its stop check, the worker can only move from `start` through `checkStop` to
`exited`; the queued task 5 is never popped and never run, even if further
producers append behind it. -/
theorem stopped_discard_invariant {s s' : SysState}
    (h : Reach noFail true s s')
    (hs : 5 ∈ s.tasks ∧ s.stop = true ∧
      (s.loc = WLoc.start ∨ s.loc = WLoc.checkStop ∨ s.loc = WLoc.exited)) :
    5 ∈ s'.tasks ∧ s'.stop = true ∧
      (s'.loc = WLoc.start ∨ s'.loc = WLoc.checkStop ∨ s'.loc = WLoc.exited) := by
  induction h with
  | refl => exact hs
  | tail _ hstep ih =>
    cases hstep <;> simp_all [push_back]

/-- Helper invariant: the `crashed` location is absorbing for the worker —
no step moves the worker out of it. -/
theorem crashed_absorbing {fails : Task → Bool} {s s' : SysState}
    (h : Reach fails true s s') (hs : s.loc = WLoc.crashed) :
    s'.loc = WLoc.crashed := by
  induction h with
  | refl => exact hs
  | tail _ hstep ih =>
    cases hstep <;> simp_all

/-- Helper invariant: whenever the worker is at `ready` (about to call
`front()`/`pop_front()`), the queue is non-empty.  The wait loop only exits
on a non-empty queue, the lock is held from that check to the pop, and no
step of any thread removes elements other than the worker's own pop. -/
theorem ready_nonempty_invariant {fails : Task → Bool} {s s' : SysState}
    (h : Reach fails true s s')
    (hs : s.loc = WLoc.ready → s.tasks ≠ []) :
    s'.loc = WLoc.ready → s'.tasks ≠ [] := by
  induction h with
  | refl => exact hs
  | tail _ hstep ih =>
    cases hstep <;> simp_all [push_back]

/-! ## Claim theorems -/

/-- Claim C1: the spec requires that shutdown (`~thread_pool`, lines
105-111) returns for every pool and workload, even with the queue empty and
workers blocked on the condition variable.  In the source this fails: the
hang scenario is reachable (worker parked on an empty queue, `stop_` then
set by line 107 — first conjunct), and from it the worker never reaches
`exited`, whatever wakeups occur, because the wait loop (line 89) never
re-checks `stop_` and the destructor never notifies; so `thread.join()` on
line 110 blocks forever (second conjunct). -/
theorem dtor_join_hangs :
    Reach noFail false initState parkedStopped ∧
    ∀ s' : SysState, Reach noFail false parkedStopped s' → ¬ join_done s' := by
  constructor
  · exact Relation.ReflTransGen.head (Step.acquire false [] false)
      (Relation.ReflTransGen.head (Step.stopPass false [])
        (Relation.ReflTransGen.head (Step.waitEnter false false)
          (Relation.ReflTransGen.head
            (Step.setStop false [] false false WLoc.waiting)
            Relation.ReflTransGen.refl)))
  · intro s' h hex
    have hinv := parked_forever h (by simp [parkedStopped])
    rw [join_done] at hex
    simp [hex] at hinv

/-- Witness for C1: the parked-and-stopped state itself is reachable from
itself, and there the join has not completed. -/
theorem dtor_join_hangs_witness : ¬ join_done parkedStopped :=
  dtor_join_hangs.2 parkedStopped Relation.ReflTransGen.refl

/-- Claim C2: the spec requires that every task submitted before shutdown
runs exactly once and is complete when shutdown returns, the worker exiting
only when the stop flag is set AND the queue is empty.  In the source this
fails: from the initial state the system can reach `exited` with task 5
still queued (submit 5, destructor sets `stop_`, worker sees `stop_` at line
85 and returns — first conjunct), and from the moment `stop_` is set before
the worker's check, task 5 stays queued and is never run (second
conjunct). -/
theorem stop_discards_queued_task :
    Reach noFail true initState ⟨[5], true, false, WLoc.exited⟩ ∧
    ∀ s' : SysState, Reach noFail true preStopped s' →
      5 ∈ s'.tasks ∧ s'.loc ≠ WLoc.run 5 := by
  constructor
  · exact Relation.ReflTransGen.head (Step.enqueueStep 5 [] false WLoc.start)
      (Relation.ReflTransGen.head
        (Step.setStop true [5] false false WLoc.start)
        (Relation.ReflTransGen.head (Step.acquire true [5] true)
          (Relation.ReflTransGen.head (Step.stopExit true [5])
            Relation.ReflTransGen.refl)))
  · intro s' h
    have hinv := stopped_discard_invariant h (by simp [preStopped])
    refine ⟨hinv.1, ?_⟩
    rcases hinv.2.2 with hl | hl | hl <;> simp [hl]

/-- Witness for C2: at the pre-stopped state itself, task 5 is queued and
not running. -/
theorem stop_discards_queued_task_witness :
    5 ∈ preStopped.tasks ∧ preStopped.loc ≠ WLoc.run 5 :=
  stop_discards_queued_task.2 preStopped Relation.ReflTransGen.refl

/-- Claim C3: the spec requires the wait loop to block only while the queue
is empty AND the stop flag is false, returning "no task" when the stop flag
is true on an empty queue.  The source's guard (line 89, `wait_cond`)
consults only emptiness: on an empty queue with the stop flag set it still
evaluates to true (first and second conjuncts, against the spec-modelled
predicate), the worker at the loop condition steps back into `cv_.wait`
instead of returning (third conjunct), and it can never exit from there
(fourth conjunct). -/
theorem wait_loop_ignores_stop_flag :
    wait_cond [] true = true ∧
    wait_cond_spec [] true = false ∧
    Step noFail false ⟨[], true, true, WLoc.waitCheck⟩
      ⟨[], true, false, WLoc.waiting⟩ ∧
    ∀ s' : SysState, Reach noFail false ⟨[], true, true, WLoc.waitCheck⟩ s' →
      s'.loc ≠ WLoc.exited := by
  refine ⟨rfl, rfl, Step.waitEnter false true, ?_⟩
  intro s' h hex
  have hinv := parked_forever h (by simp)
  simp [hex] at hinv

/-- Witness for C3: applied at the stuck wait-check state itself. -/
theorem wait_loop_ignores_stop_flag_witness :
    (⟨[], true, true, WLoc.waitCheck⟩ : SysState).loc ≠ WLoc.exited :=
  wait_loop_ignores_stop_flag.2.2.2 ⟨[], true, true, WLoc.waitCheck⟩
    Relation.ReflTransGen.refl

/-- Claim C4: the spec requires shutdown signaling to set the stop flag
under the lock and then broadcast-wake all waiters.  The source's only
shutdown path, the destructor (lines 105-111), performs no `notify_all`, no
`notify_one`, and takes no lock, while the spec-modelled `signal_shutdown`
does broadcast. -/
theorem dtor_never_notifies :
    Act.notifyAll ∉ dtor_acts ∧ Act.notifyOne ∉ dtor_acts ∧
    Act.lock ∉ dtor_acts ∧ Act.notifyAll ∈ signal_shutdown_spec := by
  decide

/-- Claim C5: the spec requires every read and mutation of the stop flag and
the queue, in every operation, to happen while `queue_mutex_` is held.
`enqueue` and the worker's locked section respect this, but the destructor
writes `stop_` with no lock held (line 107); concretely, the stop write can
fire even while the worker is inside its critical section holding the
lock. -/
theorem stop_write_unguarded :
    (∀ t : Task, locked_ok (enqueue_acts t) false = true) ∧
    locked_ok worker_iter_acts false = true ∧
    locked_ok dtor_acts false = false ∧
    Step noFail false ⟨[], false, true, WLoc.checkStop⟩
      ⟨[], true, true, WLoc.checkStop⟩ :=
  ⟨fun _ => rfl, rfl, rfl, Step.setStop false [] false true WLoc.checkStop⟩

/-- Claim C6: the spec requires a submission after shutdown has been
signaled to return `RejectedSubmission` and not queue the task.  The
source's `enqueue` (lines 113-120) never examines `stop_`: with the stop
flag set it still reports success and appends the task, where the
spec-modelled submit rejects it. -/
theorem enqueue_after_stop_not_rejected :
    (enqueue ⟨[], true⟩ 7).2 = SubmitResult.ok ∧
    (enqueue ⟨[], true⟩ 7).1.tasks = [7] ∧
    (submit_spec ⟨[], true⟩ 7).2 = SubmitResult.rejectedSubmission := by
  decide

/-- Claim C7: the spec requires construction with `thread_count = 0` to fail
with `InvalidConfiguration`, producing no pool.  The source's constructor
(lines 99-103) performs no validation: with `threads = 0` it succeeds and
yields a zero-worker pool, where the spec-modelled construction fails. -/
theorem ctor_zero_threads_no_error :
    thread_pool_mk 0 = { workers := [], tasks := [], stop := false } ∧
    construct_spec 0 = CtorResult.invalidConfiguration := by
  decide

/-- Claim C8: the queue is strict FIFO — `enqueue` appends at the back (line
118) and the worker pops the front (lines 92-93), so for any sequence of
submissions and pops starting from an empty queue, the i-th task popped is
the i-th task submitted; in particular a task submitted strictly before
another is popped first. -/
theorem fifo_pop_order (ops : List QOp) (i : Nat)
    (h : i < (runQueue ops []).2.length) :
    (runQueue ops []).2[i]? = (enqList ops)[i]? := by
  have hinv := runQueue_fifo ops []
  rw [List.nil_append] at hinv
  rw [← hinv]
  exact (List.getElem?_append_left h).symm

/-- Witness for C8: on the concrete run "submit 1, submit 2, pop, pop", the
first pop is the first submission. -/
theorem fifo_pop_order_witness :
    (runQueue fifoOps []).2[0]? = (enqList fifoOps)[0]? :=
  fifo_pop_order fifoOps 0 (by decide)

/-- Claim C9: the spec requires a failing task to be contained — the worker
discards it and returns to its cycle.  In the source `task()` (line 95) is
called with no handler: when task 3 throws, the worker moves to `crashed`
(the exception escapes the thread entry point, first conjunct) and never
returns to any state of its normal cycle (second conjunct). -/
theorem task_throw_kills_worker :
    Step failsAt3 true ⟨[], false, false, WLoc.run 3⟩ crashedState ∧
    ∀ s' : SysState, Reach failsAt3 true crashedState s' →
      s'.loc = WLoc.crashed := by
  refine ⟨Step.runThrow true 3 [] false rfl, ?_⟩
  intro s' h
  exact crashed_absorbing h rfl

/-- Witness for C9: at the crashed state itself, reached trivially, the
worker is (still) crashed. -/
theorem task_throw_kills_worker_witness : crashedState.loc = WLoc.crashed :=
  task_throw_kills_worker.2 crashedState Relation.ReflTransGen.refl

/-- Claim C10: the worker never applies `front()`/`pop_front()` to an empty
queue: in every state reachable from the initial pool state — under any
producers, any wakeups, any stop timing, and any task-failure behavior — if
the worker is at the pop site (`ready`, lines 92-93), the queue is
non-empty, because the wait loop exits only on a non-empty queue and the
lock is held continuously from that check to the pop. -/
theorem worker_never_pops_empty (fails : Task → Bool) (s' : SysState)
    (h : Reach fails true initState s') (hr : s'.loc = WLoc.ready) :
    s'.tasks ≠ [] := by
  refine ready_nonempty_invariant h ?_ hr
  intro hl
  simp [initState] at hl

/-- Witness for C10: a concrete reachable `ready` state (submit task 1, then
the worker acquires the lock, passes the stop check, and exits the wait
loop) indeed has a non-empty queue. -/
theorem worker_never_pops_empty_witness :
    (⟨[1], false, true, WLoc.ready⟩ : SysState).tasks ≠ [] :=
  worker_never_pops_empty noFail ⟨[1], false, true, WLoc.ready⟩
    (Relation.ReflTransGen.head (Step.enqueueStep 1 [] false WLoc.start)
      (Relation.ReflTransGen.head (Step.acquire true [1] false)
        (Relation.ReflTransGen.head (Step.stopPass true [1])
          (Relation.ReflTransGen.head (Step.waitExit true 1 [] false)
            Relation.ReflTransGen.refl))))
    rfl

end ThreadPool
